import Mathlib

/-!
Shallow embedding of the PM-Assistant repository:
  * `src/snowflake-mcp/server.py` — an MCP server exposing pre-configured
    Snowflake queries (SSO-only connection, query whitelist, row clamp);
  * `src/run_mcp_tool.py` — a small JSON-RPC client; we model its
    line-oriented response reader `read_rpc_response`.

External effects (the Snowflake connector, the environment, JSON decoding)
are modelled as explicit parameters (oracles); the control flow of the
Python functions is translated line by line.
-/

set_option maxRecDepth 100000

namespace PMAssistant

/-- Model of a Python exception as seen by the `except Exception` handler:
its class name (`type(e).__name__`), its message (`str(e)`), and the lines
of the formatted traceback (`traceback.format_exc().splitlines()`). -/
structure PyExc where
  ty : String
  msg : String
  tb : List String := []
deriving Repr, DecidableEq

/-- Model of the Python values that flow through the server: `None`,
integers, strings and booleans (cell values, parameter values, and the
`max_rows` argument, which MCP may hand over with an arbitrary type). -/
inductive PyVal where
  | vnone
  | vint (n : Int)
  | vstr (s : String)
  | vbool (b : Bool)
deriving Repr, DecidableEq

/-- Python truthiness (`bool(v)`) for the modelled values: `None` and the
empty string are falsy, as used by the `if v` filter on `conn_kwargs`. -/
def pyTruthy : PyVal → Bool
  | .vnone => false
  | .vint n => n != 0
  | .vstr s => s != ""
  | .vbool b => b

/-- The whitespace set of Python's `str.strip()` (ASCII part). -/
def isPyWS (c : Char) : Bool :=
  c = ' ' || c = '\t' || c = '\n' || c = '\x0d' || c = '\x0b' || c = '\x0c'

/-- Python `s.strip()`: drop leading and trailing whitespace. -/
def pyStrip (s : String) : String :=
  String.mk (((s.data.dropWhile isPyWS).reverse.dropWhile isPyWS).reverse)

/-- Python `str(v)` on the modelled values. -/
def pyStr : PyVal → String
  | .vnone => "None"
  | .vint n => toString n
  | .vstr s => s
  | .vbool b => if b then "True" else "False"

/-- Parse a non-empty run of decimal digits into a number. -/
def digitsToNat : List Char → Option Nat
  | [] => none
  | cs => cs.foldl
      (fun acc c =>
        match acc with
        | none => none
        | some n => if c.isDigit then some (n * 10 + (c.toNat - 48)) else none)
      (some 0)

/-- Parse a decimal integer literal the way Python `int(str)` does on its
common inputs: surrounding whitespace stripped, optional sign, digits. -/
def pyIntOfString (s : String) : Option Int :=
  match (pyStrip s).data with
  | '-' :: cs => (digitsToNat cs).map (fun n => -(n : Int))
  | '+' :: cs => (digitsToNat cs).map (fun n => (n : Int))
  | cs => (digitsToNat cs).map (fun n => (n : Int))

/-- Python `int(v)` on the modelled values: identity on ints, 0/1 on bools,
string parsing with a `ValueError` on failure, `TypeError` on `None`. -/
def pyInt : PyVal → Except PyExc Int
  | .vint n => .ok n
  | .vbool b => .ok (if b then 1 else 0)
  | .vstr s =>
      match pyIntOfString s with
      | some n => .ok n
      | none => .error ⟨"ValueError",
          "invalid literal for int() with base 10: '" ++ s ++ "'", []⟩
  | .vnone => .error ⟨"TypeError",
      "int() argument must be a string, a bytes-like object or a real number, not 'NoneType'", []⟩

/-- Python `xs[-n:]`: the last `n` elements (all of them when `n ≥ len`). -/
def lastN {α : Type} (n : Nat) (xs : List α) : List α :=
  xs.drop (xs.length - n)

/-- The SQL text of the single whitelisted query, exactly as the `r"""…"""`
literal in `server.py` (leading and trailing newline included). -/
def basicQuerySQL : String :=
  "\nSELECT\n  CURRENT_USER()      AS user,\n  CURRENT_ROLE()      AS role,\n  CURRENT_WAREHOUSE() AS warehouse,\n  CURRENT_DATABASE()  AS database,\n  CURRENT_SCHEMA()    AS schema;\n"

/-- The dict `QUERIES`: the immutable whitelist of pre-configured SQL texts. -/
def QUERIES : List (String × String) :=
  [("basic_query", basicQuerySQL)]

/-- Insertion step for sorting strings (models Python `sorted`). -/
def insertStr (s : String) : List String → List String
  | [] => [s]
  | t :: ts => if s ≤ t then s :: t :: ts else t :: insertStr s ts

/-- Insertion sort on strings (models Python `sorted`). -/
def sortStrs : List String → List String
  | [] => []
  | s :: ss => insertStr s (sortStrs ss)

/-- The list `sorted(QUERIES.keys())`, as returned in the unknown-query error. -/
def allowedQueryIds : List String := sortStrs (QUERIES.map Prod.fst)

/-- The process environment (`os.environ`): absent entries map to `none`. -/
def Env : Type := String → Option String

/-- One element of the DB-API `cursor.description` sequence: the code only
reads `c[0]` (the column name); the other tuple components are kept as an
opaque list. -/
structure ColDesc where
  name : String
  rest : List PyVal := []
deriving Repr, DecidableEq

deriving instance DecidableEq for Except

/-- Model of a cursor after `execute`: its `description` (possibly `None`)
and the result stream available to `fetchmany` (which may itself raise). -/
structure Cursor where
  description : Option (List ColDesc)
  fetchRows : Except PyExc (List (List PyVal))
deriving Repr, DecidableEq

/-- The column names: `[c[0] for c in cur.description] if cur.description else []`. -/
def colNames (cur : Cursor) : List String :=
  match cur.description with
  | none => []
  | some ds => ds.map ColDesc.name

/-- Model of an open connection: `exec` is the behaviour of
`cursor.execute(sql, binds)` on a fresh cursor of this connection. -/
structure Conn where
  exec : String → Option (List PyVal) → Except PyExc Cursor

/-- Oracle for `snowflake.connector.connect(**kwargs)`: external library
behaviour, universally quantified in the theorems. -/
def ConnectFn : Type := List (String × PyVal) → Except PyExc Conn

/-- Observable external events of one `run_saved_query` call: a connection
attempt with the keyword arguments actually passed to the connector, and a
`cursor.execute` call with the SQL text and bind list actually passed. -/
inductive Event where
  | connectAttempt (kwargs : List (String × PyVal))
  | executeCall (sql : String) (binds : Option (List PyVal))
deriving Repr, DecidableEq

/-- The helper `_require_env`: returns the value of the environment entry or raises
`KeyError` when it is absent or empty (Python `if not v`). -/
def _require_env (env : Env) (name : String) : Except PyExc String :=
  match env name with
  | none => .error ⟨"KeyError", "Missing required environment variable: " ++ name, []⟩
  | some v =>
      if v = "" then
        .error ⟨"KeyError", "Missing required environment variable: " ++ name, []⟩
      else .ok v

/-- Lift an optional environment value into a Python value (`None`/str). -/
def optStr : Option String → PyVal
  | none => .vnone
  | some s => .vstr s

/-- The `conn_kwargs` dict of `_connect` before the truthiness filter, in
source order. -/
def connKwargsRaw (env : Env) (authenticator : String) : List (String × PyVal) :=
  [("account", .vstr "uipath_observability.west-europe.azure"),
   ("user", .vstr "anurag.krishna@uipath.com"),
   ("warehouse", .vstr "PROD_CUSTOMER_READ"),
   ("role", optStr (env "SNOWFLAKE_ROLE")),
   ("database", optStr (env "SNOWFLAKE_DATABASE")),
   ("schema", optStr (env "SNOWFLAKE_SCHEMA")),
   ("authenticator", .vstr authenticator),
   ("client_session_keep_alive", .vbool true)]

/-- The `conn_kwargs` dict after `{k: v for k, v in … if v}`. -/
def connKwargs (env : Env) (authenticator : String) : List (String × PyVal) :=
  (connKwargsRaw env authenticator).filter (fun kv => pyTruthy kv.2)

/-- The helper `_connect`: SSO-only connection. Rejects any authenticator other than
`externalbrowser` before calling the connector; otherwise builds the
filtered kwargs and calls the connector. The second component is the list
of connection attempts actually made. -/
def _connect (connect : ConnectFn) (env : Env) :
    Except PyExc Conn × List Event :=
  let authenticator := (env "SNOWFLAKE_AUTHENTICATOR").getD "externalbrowser"
  if authenticator ≠ "externalbrowser" then
    (.error ⟨"ValueError",
      "SSO-only server: SNOWFLAKE_AUTHENTICATOR must be 'externalbrowser' (got '"
        ++ authenticator ++ "')", []⟩, [])
  else
    let kwargs := connKwargs env authenticator
    (connect kwargs, [.connectAttempt kwargs])

/-- The helper `_normalize_ilike`: trim; empty means no filter; wrap as a substring
pattern when no `%` wildcard is present; otherwise keep as given. -/
def _normalize_ilike (pattern : Option PyVal) : Option String :=
  match pattern with
  | none => none
  | some v =>
      let p := pyStrip (pyStr v)
      if p = "" then none
      else if !(p.data.contains '%') then some ("%" ++ p ++ "%")
      else some p

/-- The helper `_params_for`: the binds for a given `query_id` and `params`; currently
`None` for every query. -/
def _params_for (query_id : String) (params : Option (List (String × PyVal))) :
    Option (List PyVal) :=
  none

/-- The fields of a successful `run_saved_query` response dict. -/
structure SuccessResp where
  query_id : String
  params_used : List (String × PyVal)
  columns : List String
  rows : List (List PyVal)
  row_count_returned : Nat
  row_limit : Int
deriving Repr, DecidableEq

/-- The response dicts `run_saved_query` can return: the unknown-query
refusal, the success dict, and the caught-exception failure dict. -/
inductive Response where
  | unknown (error : String) (allowed : List String)
  | success (r : SuccessResp)
  | failure (query_id : String) (error_type : String) (error : String)
      (traceback_tail : List String)
deriving Repr, DecidableEq

/-- The failure dict built in the `except Exception` handler. -/
def failureResp (query_id : String) (e : PyExc) : Response :=
  .failure query_id e.ty e.msg (lastN 20 e.tb)

/-- The tool `run_saved_query`: run a pre-configured query by ID. The result is
`Except`, because the `int(max_rows)` conversion sits outside the
`try`/`except` and can propagate; everything inside the `try` is caught.
The second component is the trace of external events (connection attempts
and `execute` calls). -/
def run_saved_query (connect : ConnectFn) (env : Env) (query_id : String)
    (params : Option (List (String × PyVal))) (max_rows : PyVal) :
    Except PyExc Response × List Event :=
  match QUERIES.lookup query_id with
  | none =>
      (.ok (.unknown ("Unknown query_id '" ++ query_id ++ "'") allowedQueryIds), [])
  | some sql =>
      match pyInt max_rows with
      | .error e => (.error e, [])
      | .ok mr0 =>
          let mr : Int := max 1 (min mr0 5000)
          let binds : Option (List PyVal) := none
          match _connect connect env with
          | (.error e, tr) => (.ok (failureResp query_id e), tr)
          | (.ok conn, tr) =>
              match conn.exec sql binds with
              | .error e => (.ok (failureResp query_id e), tr ++ [.executeCall sql binds])
              | .ok cur =>
                  let tr := tr ++ [.executeCall sql binds]
                  let cols := colNames cur
                  match cur.fetchRows with
                  | .error e => (.ok (failureResp query_id e), tr)
                  | .ok allRows =>
                      let rows := allRows.take mr.toNat
                      (.ok (.success
                        { query_id := query_id
                          params_used := params.getD []
                          columns := cols
                          rows := rows
                          row_count_returned := rows.length
                          row_limit := mr }), tr)

/-- The reader `read_rpc_response` from `run_mcp_tool.py`: read stripped lines from
the stream; a non-JSON line is printed and skipped; the first line that
strips to empty (a blank line, or the empty string `readline` returns at
end of stream) breaks the loop and yields `None`. `decode` models
`json.loads` restricted to one line (`none` = `JSONDecodeError`); the
stream is the list of lines `readline` still has to deliver. -/
def read_rpc_response {J : Type} (decode : String → Option J) :
    List String → Option J
  | [] => none
  | l :: ls =>
      let line := pyStrip l
      if line = "" then none
      else
        match decode line with
        | some j => some j
        | none => read_rpc_response decode ls

/-!  Concrete oracles used to instantiate the theorems on closed inputs. -/

/-- A concrete cursor: one `USER` column and one row. -/
def stubCursor : Cursor :=
  { description := some [⟨"USER", []⟩], fetchRows := .ok [[.vstr "ANURAG"]] }

/-- A connection whose every `execute` yields `stubCursor`. -/
def stubConn : Conn := ⟨fun _ _ => .ok stubCursor⟩

/-- A connector oracle whose every connection attempt succeeds. -/
def stubConnectOk : ConnectFn := fun _ => .ok stubConn

/-- The exception a failing connector oracle raises. -/
def stubConnExc : PyExc :=
  ⟨"OperationalError", "network unreachable",
   ["Traceback (most recent call last):", "OperationalError: network unreachable"]⟩

/-- A connector oracle whose every connection attempt raises. -/
def stubConnectFail : ConnectFn := fun _ => .error stubConnExc

/-- An environment with no variables set. -/
def envEmpty : Env := fun _ => none

/-- C2: for every `query_id` not in the whitelist, `run_saved_query` returns
the structured failure with the exact `Unknown query_id '<id>'` message and
the sorted whitelist keys, and its event trace is empty: no connection is
opened and no warehouse contact happens. -/
theorem run_saved_query_unknown_id (connect : ConnectFn) (env : Env)
    (query_id : String) (params : Option (List (String × PyVal))) (max_rows : PyVal)
    (h : QUERIES.lookup query_id = none) :
    run_saved_query connect env query_id params max_rows =
      (.ok (.unknown ("Unknown query_id '" ++ query_id ++ "'") allowedQueryIds), []) ∧
    allowedQueryIds = sortStrs (QUERIES.map Prod.fst) ∧
    List.Pairwise (fun a b => a ≤ b) allowedQueryIds := by
  refine ⟨?_, rfl, by decide⟩
  unfold run_saved_query
  rw [h]

/-- Witness for C2 at the concrete unknown id `nope`. -/
theorem run_saved_query_unknown_id_witness :
    run_saved_query stubConnectOk envEmpty "nope" none (.vint 500) =
      (.ok (.unknown ("Unknown query_id '" ++ "nope" ++ "'") allowedQueryIds), []) ∧
    allowedQueryIds = sortStrs (QUERIES.map Prod.fst) ∧
    List.Pairwise (fun a b => a ≤ b) allowedQueryIds :=
  run_saved_query_unknown_id stubConnectOk envEmpty "nope" none (.vint 500) (by decide)

/-- C3: for every integer `max_rows` (including 0, negative, and values
above 5000), a successful response reports `row_limit = max 1 (min n 5000)`,
which lies in `[1, 5000]`, and the number of rows actually fetched is
bounded by that same limit. -/
theorem run_saved_query_row_limit_clamped (connect : ConnectFn) (env : Env)
    (query_id : String) (params : Option (List (String × PyVal))) (n : Int)
    (r : SuccessResp) (tr : List Event)
    (h : run_saved_query connect env query_id params (.vint n) = (.ok (.success r), tr)) :
    r.row_limit = max 1 (min n 5000) ∧ 1 ≤ r.row_limit ∧ r.row_limit ≤ 5000 ∧
    r.rows.length ≤ r.row_limit.toNat := by
  unfold run_saved_query at h
  cases hq : QUERIES.lookup query_id with
  | none => rw [hq] at h; simp at h
  | some sql =>
    rw [hq] at h
    simp only [pyInt] at h
    cases hc : _connect connect env with
    | mk c tr0 =>
      rw [hc] at h
      cases c with
      | error e => simp [failureResp] at h
      | ok conn =>
        dsimp only at h
        cases he : conn.exec sql none with
        | error e => rw [he] at h; simp [failureResp] at h
        | ok cur =>
          rw [he] at h
          dsimp only at h
          cases hf : cur.fetchRows with
          | error e => rw [hf] at h; simp [failureResp] at h
          | ok allRows =>
            rw [hf] at h
            simp only [Prod.mk.injEq, Except.ok.injEq, Response.success.injEq] at h
            obtain ⟨hr, -⟩ := h
            subst hr
            refine ⟨rfl, le_max_left 1 _, ?_, ?_⟩
            · exact max_le (by norm_num) (min_le_right n 5000)
            · simp

/-- The kwargs the stub runs pass to the connector (no optionals set). -/
def stubKwargs : List (String × PyVal) := connKwargs envEmpty "externalbrowser"

/-- The success response of the stub run with `max_rows = 0`. -/
def stubSuccess0 : SuccessResp :=
  { query_id := "basic_query", params_used := [], columns := ["USER"],
    rows := [[.vstr "ANURAG"]], row_count_returned := 1, row_limit := 1 }

/-- The event trace of a successful stub run. -/
def stubTrace : List Event :=
  [.connectAttempt stubKwargs, .executeCall basicQuerySQL none]

set_option maxRecDepth 4000 in
/-- Witness for C3 at the concrete input `max_rows = 0`, clamped to 1. -/
theorem run_saved_query_row_limit_clamped_witness :
    stubSuccess0.row_limit = max 1 (min 0 5000) ∧ 1 ≤ stubSuccess0.row_limit ∧
    stubSuccess0.row_limit ≤ 5000 ∧
    stubSuccess0.rows.length ≤ stubSuccess0.row_limit.toNat :=
  run_saved_query_row_limit_clamped stubConnectOk envEmpty "basic_query" none 0
    stubSuccess0 stubTrace (by decide)

/-- C8: `_normalize_ilike` is a pure total function on strings: the input
is first stripped; if the stripped result is empty the result is `none`
(no filter); if it contains no `%` wildcard the result wraps it as
`%pattern%`; otherwise the stripped input is returned unchanged. -/
theorem normalize_ilike_spec (s : String) :
    (pyStrip s = "" → _normalize_ilike (some (.vstr s)) = none) ∧
    (pyStrip s ≠ "" → (pyStrip s).data.contains '%' = false →
        _normalize_ilike (some (.vstr s)) = some ("%" ++ pyStrip s ++ "%")) ∧
    (pyStrip s ≠ "" → (pyStrip s).data.contains '%' = true →
        _normalize_ilike (some (.vstr s)) = some (pyStrip s)) := by
  refine ⟨fun h1 => ?_, fun h1 h2 => ?_, fun h1 h2 => ?_⟩
  · simp [_normalize_ilike, pyStr, h1]
  · simp at h2
    simp [_normalize_ilike, pyStr, h1, h2]
  · simp at h2
    simp [_normalize_ilike, pyStr, h1, h2]

/-- Witness for C8 at `"  salesforce "` (wrapped) and `"%sales%"` (kept). -/
theorem normalize_ilike_spec_witness :
    _normalize_ilike (some (.vstr "  salesforce ")) = some ("%" ++ pyStrip "  salesforce " ++ "%") ∧
    _normalize_ilike (some (.vstr "%sales%")) = some (pyStrip "%sales%") ∧
    _normalize_ilike (some (.vstr "   ")) = none :=
  ⟨(normalize_ilike_spec "  salesforce ").2.1 (by decide) (by decide),
   (normalize_ilike_spec "%sales%").2.2 (by decide) (by decide),
   (normalize_ilike_spec "   ").1 (by decide)⟩

/-- C10: the whitelist check runs before the `int(max_rows)` conversion,
and the conversion sits outside the `try`: for every unknown `query_id`
the unknown-query dict is returned whatever `max_rows` and `params` are
(no exception escapes), while for a whitelisted `query_id` and a
`max_rows` that `int()` cannot convert, the call raises instead of
returning a response dict. -/
theorem run_saved_query_order_of_checks (connect : ConnectFn) (env : Env)
    (query_id : String) (params : Option (List (String × PyVal))) (max_rows : PyVal) :
    (QUERIES.lookup query_id = none →
        run_saved_query connect env query_id params max_rows =
          (.ok (.unknown ("Unknown query_id '" ++ query_id ++ "'") allowedQueryIds), [])) ∧
    (∀ sql e, QUERIES.lookup query_id = some sql → pyInt max_rows = .error e →
        run_saved_query connect env query_id params max_rows = (.error e, [])) := by
  constructor
  · intro h
    unfold run_saved_query
    rw [h]
  · intro sql e hq hm
    unfold run_saved_query
    rw [hq, hm]

/-- Witness for C10: unknown id with a `None` max_rows still returns the
refusal dict; known id with the string `"abc"` raises `ValueError`. -/
theorem run_saved_query_order_of_checks_witness :
    run_saved_query stubConnectOk envEmpty "nope" none .vnone =
      (.ok (.unknown ("Unknown query_id '" ++ "nope" ++ "'") allowedQueryIds), []) ∧
    run_saved_query stubConnectOk envEmpty "basic_query" none (.vstr "abc") =
      (.error ⟨"ValueError", "invalid literal for int() with base 10: 'abc'", []⟩, []) :=
  ⟨(run_saved_query_order_of_checks stubConnectOk envEmpty "nope" none .vnone).1
      (by decide),
   (run_saved_query_order_of_checks stubConnectOk envEmpty "basic_query" none
      (.vstr "abc")).2 basicQuerySQL
      ⟨"ValueError", "invalid literal for int() with base 10: 'abc'", []⟩
      (by decide) (by decide)⟩

/-- C6: if the authenticator environment entry is set to anything other
than `externalbrowser`, `_connect` raises a `ValueError` whose message
names the disallowed value, and its trace is empty: the connector is never
called, so the failure happens before any network contact. -/
theorem connect_rejects_non_sso (connect : ConnectFn) (env : Env) (a : String)
    (hset : env "SNOWFLAKE_AUTHENTICATOR" = some a) (hne : a ≠ "externalbrowser") :
    _connect connect env =
      (.error ⟨"ValueError",
        "SSO-only server: SNOWFLAKE_AUTHENTICATOR must be 'externalbrowser' (got '"
          ++ a ++ "')", []⟩, []) ∧
    (∀ kwargs, Event.connectAttempt kwargs ∉ (_connect connect env).2) := by
  have h1 : _connect connect env =
      (.error ⟨"ValueError",
        "SSO-only server: SNOWFLAKE_AUTHENTICATOR must be 'externalbrowser' (got '"
          ++ a ++ "')", []⟩, []) := by
    unfold _connect
    rw [hset]
    simp [hne]
  refine ⟨h1, fun kwargs => ?_⟩
  rw [h1]
  simp

/-- An environment selecting the password authenticator (Scenario D). -/
def envPassword : Env :=
  fun n => if n = "SNOWFLAKE_AUTHENTICATOR" then some "password" else none

/-- Witness for C6 with the authenticator overridden to `password`. -/
theorem connect_rejects_non_sso_witness :
    _connect stubConnectOk envPassword =
      (.error ⟨"ValueError",
        "SSO-only server: SNOWFLAKE_AUTHENTICATOR must be 'externalbrowser' (got '"
          ++ "password" ++ "')", []⟩, []) ∧
    (∀ kwargs, Event.connectAttempt kwargs ∉ (_connect stubConnectOk envPassword).2) :=
  connect_rejects_non_sso stubConnectOk envPassword "password" (by decide) (by decide)

/-- The trace `_connect` produces never holds an `execute` event. -/
theorem connect_trace_no_execute (connect : ConnectFn) (env : Env) :
    ∀ s b, Event.executeCall s b ∉ (_connect connect env).2 := by
  intro s b
  unfold _connect
  dsimp only
  split
  · simp
  · simp

/-- C1: for a whitelisted `query_id` the external event trace of
`run_saved_query` does not depend on `params`, and every `execute` event
in it carries exactly the fixed SQL template of that `query_id` with a
`None` bind list: parameter values are never concatenated into the SQL. -/
theorem run_saved_query_sql_fixed (connect : ConnectFn) (env : Env)
    (query_id sql : String) (p₁ p₂ : Option (List (String × PyVal))) (max_rows : PyVal)
    (hq : QUERIES.lookup query_id = some sql) :
    (run_saved_query connect env query_id p₁ max_rows).2 =
      (run_saved_query connect env query_id p₂ max_rows).2 ∧
    (∀ s b, Event.executeCall s b ∈ (run_saved_query connect env query_id p₁ max_rows).2 →
        s = sql ∧ b = none) := by
  have hnoexec := connect_trace_no_execute connect env
  unfold run_saved_query
  rw [hq]
  cases hm : pyInt max_rows with
  | error e => exact ⟨rfl, by intro s b hb; simp at hb⟩
  | ok mr0 =>
    cases hc : _connect connect env with
    | mk c tr0 =>
      rw [hc] at hnoexec
      cases c with
      | error e =>
        refine ⟨rfl, fun s b hb => absurd hb (hnoexec s b)⟩
      | ok conn =>
        dsimp only
        cases he : conn.exec sql none with
        | error e =>
          refine ⟨rfl, fun s b hb => ?_⟩
          rcases List.mem_append.mp hb with h | h
          · exact absurd h (hnoexec s b)
          · simp at h
            exact ⟨h.1, h.2⟩
        | ok cur =>
          dsimp only
          cases hf : cur.fetchRows with
          | error e =>
            refine ⟨rfl, fun s b hb => ?_⟩
            rcases List.mem_append.mp hb with h | h
            · exact absurd h (hnoexec s b)
            · simp at h
              exact ⟨h.1, h.2⟩
          | ok allRows =>
            refine ⟨rfl, fun s b hb => ?_⟩
            rcases List.mem_append.mp hb with h | h
            · exact absurd h (hnoexec s b)
            · simp at h
              exact ⟨h.1, h.2⟩

/-- Witness for C1: two runs differing only in `params` produce the same
trace, whose single `execute` event carries the fixed SQL and no binds. -/
theorem run_saved_query_sql_fixed_witness :
    (run_saved_query stubConnectOk envEmpty "basic_query" none (.vint 500)).2 =
      (run_saved_query stubConnectOk envEmpty "basic_query"
        (some [("month", .vint 1)]) (.vint 500)).2 ∧
    (∀ s b, Event.executeCall s b ∈
        (run_saved_query stubConnectOk envEmpty "basic_query" none (.vint 500)).2 →
      s = basicQuerySQL ∧ b = none) :=
  run_saved_query_sql_fixed stubConnectOk envEmpty "basic_query" basicQuerySQL
    none (some [("month", .vint 1)]) (.vint 500) (by decide)

/-- C5: once past the whitelist check and the `int(max_rows)` conversion,
`run_saved_query` always returns a response (never lets an exception
propagate), and an exception raised by the connect, execute, or fetch
stage is converted into the structured failure dict carrying the
`query_id`, the exception class name, its message, and the last 20
traceback lines. -/
theorem run_saved_query_catches (connect : ConnectFn) (env : Env)
    (query_id sql : String) (params : Option (List (String × PyVal)))
    (max_rows : PyVal) (mr : Int)
    (hq : QUERIES.lookup query_id = some sql) (hm : pyInt max_rows = .ok mr) :
    (∃ resp, (run_saved_query connect env query_id params max_rows).1 = .ok resp) ∧
    (∀ e tr, _connect connect env = (.error e, tr) →
        (run_saved_query connect env query_id params max_rows).1 =
          .ok (.failure query_id e.ty e.msg (lastN 20 e.tb))) ∧
    (∀ conn tr e, _connect connect env = (.ok conn, tr) →
        conn.exec sql none = .error e →
        (run_saved_query connect env query_id params max_rows).1 =
          .ok (.failure query_id e.ty e.msg (lastN 20 e.tb))) ∧
    (∀ conn tr cur e, _connect connect env = (.ok conn, tr) →
        conn.exec sql none = .ok cur → cur.fetchRows = .error e →
        (run_saved_query connect env query_id params max_rows).1 =
          .ok (.failure query_id e.ty e.msg (lastN 20 e.tb))) := by
  unfold run_saved_query
  rw [hq, hm]
  cases hc : _connect connect env with
  | mk c tr0 =>
    cases c with
    | error e0 =>
      dsimp only
      refine ⟨⟨failureResp query_id e0, rfl⟩, fun e tr h => ?_, fun conn tr e h => ?_,
        fun conn tr cur e h => ?_⟩
      · simp only [Prod.mk.injEq, Except.error.injEq] at h
        rw [← h.1]
        rfl
      · simp at h
      · simp at h
    | ok conn =>
      dsimp only
      cases he : conn.exec sql none with
      | error e1 =>
        dsimp only
        refine ⟨⟨failureResp query_id e1, rfl⟩, fun e tr h => ?_, fun conn2 tr e h h2 => ?_,
          fun conn2 tr cur e h h2 => ?_⟩
        · simp at h
        · simp only [Prod.mk.injEq, Except.ok.injEq] at h
          rw [← h.1] at h2
          rw [he] at h2
          simp only [Except.error.injEq] at h2
          rw [← h2]
          rfl
        · simp only [Prod.mk.injEq, Except.ok.injEq] at h
          rw [← h.1] at h2
          rw [he] at h2
          simp at h2
      | ok cur =>
        dsimp only
        cases hf : cur.fetchRows with
        | error e1 =>
          dsimp only
          refine ⟨⟨failureResp query_id e1, rfl⟩, fun e tr h => ?_,
            fun conn2 tr e h h2 => ?_, fun conn2 tr cur2 e h h2 h3 => ?_⟩
          · simp at h
          · simp only [Prod.mk.injEq, Except.ok.injEq] at h
            rw [← h.1] at h2
            rw [he] at h2
            simp at h2
          · simp only [Prod.mk.injEq, Except.ok.injEq] at h
            rw [← h.1] at h2
            rw [he] at h2
            simp only [Except.ok.injEq] at h2
            rw [← h2] at h3
            rw [hf] at h3
            simp only [Except.error.injEq] at h3
            rw [← h3]
            rfl
        | ok allRows =>
          dsimp only
          refine ⟨⟨_, rfl⟩, fun e tr h => ?_, fun conn2 tr e h h2 => ?_,
            fun conn2 tr cur2 e h h2 h3 => ?_⟩
          · simp at h
          · simp only [Prod.mk.injEq, Except.ok.injEq] at h
            rw [← h.1] at h2
            rw [he] at h2
            simp at h2
          · simp only [Prod.mk.injEq, Except.ok.injEq] at h
            rw [← h.1] at h2
            rw [he] at h2
            simp only [Except.ok.injEq] at h2
            rw [← h2] at h3
            rw [hf] at h3
            simp at h3

/-- Witness for C5: a failing connector is converted into the structured
failure dict. -/
theorem run_saved_query_catches_witness :
    (run_saved_query stubConnectFail envEmpty "basic_query" none (.vint 500)).1 =
      .ok (.failure "basic_query" stubConnExc.ty stubConnExc.msg (lastN 20 stubConnExc.tb)) :=
  (run_saved_query_catches stubConnectFail envEmpty "basic_query" basicQuerySQL
      none (.vint 500) 500 (by decide) (by decide)).2.1 stubConnExc
    [.connectAttempt stubKwargs] (by rfl)

/-- A cursor is well formed when every row it can deliver has as many
entries as the column list the code derives from its description (the
DB-API contract of the connector). -/
def CursorWF (cur : Cursor) : Prop :=
  ∀ rows, cur.fetchRows = .ok rows → ∀ row ∈ rows, row.length = (colNames cur).length

/-- A connection is well formed when every cursor it yields is. -/
def ConnWF (conn : Conn) : Prop :=
  ∀ sql binds cur, conn.exec sql binds = .ok cur → CursorWF cur

/-- A connector oracle is well formed when every connection it yields is. -/
def ConnectWF (connect : ConnectFn) : Prop :=
  ∀ kwargs conn, connect kwargs = .ok conn → ConnWF conn

/-- Every connection `_connect` hands back comes from the connector. -/
theorem connect_ok_from_oracle (connect : ConnectFn) (env : Env) (conn : Conn)
    (tr : List Event) (h : _connect connect env = (.ok conn, tr)) :
    ∃ kwargs, connect kwargs = .ok conn := by
  unfold _connect at h
  dsimp only at h
  split at h
  · simp at h
  · simp only [Prod.mk.injEq] at h
    exact ⟨_, h.1⟩

/-- C4: on a well-formed connector, every successful response satisfies
`row_count_returned = len(rows)`, `len(rows) ≤ row_limit`, and every row
has exactly as many entries as `columns`. -/
theorem run_saved_query_success_invariants (connect : ConnectFn) (env : Env)
    (query_id : String) (params : Option (List (String × PyVal))) (max_rows : PyVal)
    (r : SuccessResp) (tr : List Event) (hwf : ConnectWF connect)
    (h : run_saved_query connect env query_id params max_rows = (.ok (.success r), tr)) :
    r.row_count_returned = r.rows.length ∧ r.rows.length ≤ r.row_limit.toNat ∧
    ∀ row ∈ r.rows, row.length = r.columns.length := by
  unfold run_saved_query at h
  cases hq : QUERIES.lookup query_id with
  | none => rw [hq] at h; simp at h
  | some sql =>
    rw [hq] at h
    cases hm : pyInt max_rows with
    | error e => rw [hm] at h; simp at h
    | ok mr0 =>
      rw [hm] at h
      cases hc : _connect connect env with
      | mk c tr0 =>
        rw [hc] at h
        cases c with
        | error e => simp [failureResp] at h
        | ok conn =>
          dsimp only at h
          cases he : conn.exec sql none with
          | error e => rw [he] at h; simp [failureResp] at h
          | ok cur =>
            rw [he] at h
            dsimp only at h
            cases hf : cur.fetchRows with
            | error e => rw [hf] at h; simp [failureResp] at h
            | ok allRows =>
              rw [hf] at h
              simp only [Prod.mk.injEq, Except.ok.injEq, Response.success.injEq] at h
              obtain ⟨hr, -⟩ := h
              subst hr
              obtain ⟨kwargs, hkw⟩ := connect_ok_from_oracle connect env conn tr0 hc
              have hcwf : CursorWF cur := hwf kwargs conn hkw sql none cur he
              refine ⟨rfl, by simp, fun row hrow => ?_⟩
              exact hcwf allRows hf row (List.take_subset _ _ hrow)

/-- The success response of the stub run with the default `max_rows`. -/
def stubSuccess500 : SuccessResp :=
  { query_id := "basic_query", params_used := [], columns := ["USER"],
    rows := [[.vstr "ANURAG"]], row_count_returned := 1, row_limit := 500 }

/-- Witness for C4 on the concrete stub oracle. -/
theorem run_saved_query_success_invariants_witness :
    stubSuccess500.row_count_returned = stubSuccess500.rows.length ∧
    stubSuccess500.rows.length ≤ stubSuccess500.row_limit.toNat ∧
    ∀ row ∈ stubSuccess500.rows, row.length = stubSuccess500.columns.length :=
  run_saved_query_success_invariants stubConnectOk envEmpty "basic_query" none
    (.vint 500) stubSuccess500 stubTrace
    (by
      intro kwargs conn hconn sql binds cur hcur rows hrows row hrow
      cases hconn
      cases hcur
      cases hrows
      simp [stubCursor, colNames] at hrow ⊢
      rw [hrow]
      simp)
    (by decide)

/-- C7 counterexample: with none of `SNOWFLAKE_ROLE`, `SNOWFLAKE_DATABASE`,
`SNOWFLAKE_SCHEMA` set, the first use of `basic_query` raises no
configuration error at all: the run succeeds and the absent values are
simply missing from the kwargs handed to the connector. -/
theorem connect_missing_optionals_cex :
    run_saved_query stubConnectOk envEmpty "basic_query" none (.vint 500) =
      (.ok (.success stubSuccess500), stubTrace) ∧
    stubKwargs.lookup "role" = none ∧
    stubKwargs.lookup "database" = none ∧
    stubKwargs.lookup "schema" = none := by
  refine ⟨by decide, by decide, by decide, by decide⟩

/-- Keys absent from a filtered association list: if every pair carrying
the key fails the filter, the lookup misses. -/
theorem lookup_filter_none {α : Type} (p : String × α → Bool) (k : String)
    (l : List (String × α)) (h : ∀ kv ∈ l, kv.1 = k → p kv = false) :
    (l.filter p).lookup k = none := by
  induction l with
  | nil => simp
  | cons kv t ih =>
    have ht : ∀ kv2 ∈ t, kv2.1 = k → p kv2 = false :=
      fun kv2 hm hk => h kv2 (List.mem_cons_of_mem _ hm) hk
    by_cases hp : p kv = true
    · have hk : kv.1 ≠ k := by
        intro he
        rw [h kv (List.mem_cons_self _ _) he] at hp
        exact Bool.false_ne_true hp
      cases kv with
      | mk k1 v =>
        rw [List.filter_cons_of_pos hp]
        have hbeq : (k == k1) = false := beq_eq_false_iff_ne.mpr (Ne.symm hk)
        simp only [List.lookup, hbeq]
        exact ih ht
    · rw [List.filter_cons_of_neg hp]
      exact ih ht

/-- C7 (amended): `role`, `database`, `schema` are read from their named
environment entries only when `_connect` runs (first use, not process
start); an absent or empty value is silently dropped from the connector
kwargs rather than surfaced as an error, while the helper `_require_env`
raises the `Missing required environment variable` `KeyError` when it is
called on an absent or empty entry — but the code never calls it for
these values. -/
theorem config_read_at_connect_time (env : Env) (connect : ConnectFn) (name : String) :
    ((env name = none ∨ env name = some "") →
        _require_env env name =
          .error ⟨"KeyError", "Missing required environment variable: " ++ name, []⟩) ∧
    ((env "SNOWFLAKE_AUTHENTICATOR").getD "externalbrowser" = "externalbrowser" →
        _connect connect env =
          (connect (connKwargs env "externalbrowser"),
            [.connectAttempt (connKwargs env "externalbrowser")]) ∧
        ((env "SNOWFLAKE_ROLE" = none ∨ env "SNOWFLAKE_ROLE" = some "") →
            (connKwargs env "externalbrowser").lookup "role" = none) ∧
        ((env "SNOWFLAKE_DATABASE" = none ∨ env "SNOWFLAKE_DATABASE" = some "") →
            (connKwargs env "externalbrowser").lookup "database" = none) ∧
        ((env "SNOWFLAKE_SCHEMA" = none ∨ env "SNOWFLAKE_SCHEMA" = some "") →
            (connKwargs env "externalbrowser").lookup "schema" = none)) := by
  constructor
  · rintro (h | h) <;> simp [_require_env, h]
  · intro ha
    refine ⟨?_, ?_, ?_, ?_⟩
    · unfold _connect
      dsimp only
      rw [ha]
      simp
    · intro h
      apply lookup_filter_none
      intro kv hkv hk
      simp only [connKwargsRaw, List.mem_cons, List.not_mem_nil, or_false] at hkv
      rcases hkv with rfl | rfl | rfl | rfl | rfl | rfl | rfl | rfl
      · dsimp only at hk
        exact absurd hk (by decide)
      · dsimp only at hk
        exact absurd hk (by decide)
      · dsimp only at hk
        exact absurd hk (by decide)
      · rcases h with h | h <;> simp [optStr, pyTruthy, h]
      · dsimp only at hk
        exact absurd hk (by decide)
      · dsimp only at hk
        exact absurd hk (by decide)
      · dsimp only at hk
        exact absurd hk (by decide)
      · dsimp only at hk
        exact absurd hk (by decide)
    · intro h
      apply lookup_filter_none
      intro kv hkv hk
      simp only [connKwargsRaw, List.mem_cons, List.not_mem_nil, or_false] at hkv
      rcases hkv with rfl | rfl | rfl | rfl | rfl | rfl | rfl | rfl
      · dsimp only at hk
        exact absurd hk (by decide)
      · dsimp only at hk
        exact absurd hk (by decide)
      · dsimp only at hk
        exact absurd hk (by decide)
      · dsimp only at hk
        exact absurd hk (by decide)
      · rcases h with h | h <;> simp [optStr, pyTruthy, h]
      · dsimp only at hk
        exact absurd hk (by decide)
      · dsimp only at hk
        exact absurd hk (by decide)
      · dsimp only at hk
        exact absurd hk (by decide)
    · intro h
      apply lookup_filter_none
      intro kv hkv hk
      simp only [connKwargsRaw, List.mem_cons, List.not_mem_nil, or_false] at hkv
      rcases hkv with rfl | rfl | rfl | rfl | rfl | rfl | rfl | rfl
      · dsimp only at hk
        exact absurd hk (by decide)
      · dsimp only at hk
        exact absurd hk (by decide)
      · dsimp only at hk
        exact absurd hk (by decide)
      · dsimp only at hk
        exact absurd hk (by decide)
      · dsimp only at hk
        exact absurd hk (by decide)
      · rcases h with h | h <;> simp [optStr, pyTruthy, h]
      · dsimp only at hk
        exact absurd hk (by decide)
      · dsimp only at hk
        exact absurd hk (by decide)

/-- Witness for the amended C7 on the all-empty environment. -/
theorem config_read_at_connect_time_witness :
    _require_env envEmpty "SNOWFLAKE_ROLE" =
      .error ⟨"KeyError", "Missing required environment variable: " ++ "SNOWFLAKE_ROLE", []⟩ ∧
    _connect stubConnectOk envEmpty =
      (stubConnectOk (connKwargs envEmpty "externalbrowser"),
        [.connectAttempt (connKwargs envEmpty "externalbrowser")]) ∧
    (connKwargs envEmpty "externalbrowser").lookup "role" = none :=
  ⟨(config_read_at_connect_time envEmpty stubConnectOk "SNOWFLAKE_ROLE").1 (Or.inl rfl),
   ((config_read_at_connect_time envEmpty stubConnectOk "SNOWFLAKE_ROLE").2 (by decide)).1,
   ((config_read_at_connect_time envEmpty stubConnectOk "SNOWFLAKE_ROLE").2 (by decide)).2.1
     (Or.inl rfl)⟩

/-- A concrete JSON decoder for the reader theorems: only the line `ok`
deserializes (to `1`); every other line fails to parse. -/
def decodeOkStub : String → Option Nat :=
  fun s => if s = "ok" then some 1 else none

/-- C9 counterexample: a whitespace-only line makes `read_rpc_response`
signal end-of-stream immediately, even though the stream is not exhausted
and a well-formed message (`ok`) is still waiting right behind it. -/
theorem read_rpc_response_blank_line_cex :
    read_rpc_response decodeOkStub ["   ", "ok"] = none ∧
    read_rpc_response decodeOkStub ["ok"] = some 1 := by
  refine ⟨by decide, by decide⟩

/-- C9 (amended): `read_rpc_response` never raises: an exhausted stream
yields `None`; a line that strips to empty immediately yields `None`
(end-of-stream is assumed, even if the stream is not exhausted); a line
that deserializes is returned; a non-empty line that fails to deserialize
is discarded and reading continues with the rest of the stream. -/
theorem read_rpc_response_spec {J : Type} (decode : String → Option J)
    (l : String) (ls : List String) :
    read_rpc_response decode [] = none ∧
    (pyStrip l = "" → read_rpc_response decode (l :: ls) = none) ∧
    (∀ j, pyStrip l ≠ "" → decode (pyStrip l) = some j →
        read_rpc_response decode (l :: ls) = some j) ∧
    (pyStrip l ≠ "" → decode (pyStrip l) = none →
        read_rpc_response decode (l :: ls) = read_rpc_response decode ls) := by
  refine ⟨rfl, fun h => ?_, fun j hne hj => ?_, fun hne hd => ?_⟩
  · simp [read_rpc_response, h]
  · simp [read_rpc_response, hne, hj]
  · simp [read_rpc_response, hne, hd]

/-- Witness for the amended C9: a log line is skipped, then `ok` parses. -/
theorem read_rpc_response_spec_witness :
    read_rpc_response decodeOkStub ["junk", "ok"] = read_rpc_response decodeOkStub ["ok"] ∧
    read_rpc_response decodeOkStub ["ok"] = some 1 :=
  ⟨(read_rpc_response_spec decodeOkStub "junk" ["ok"]).2.2.2 (by decide) (by decide),
   (read_rpc_response_spec decodeOkStub "ok" []).2.2.1 1 (by decide) (by decide)⟩

end PMAssistant
